import Mathlib

/-!
Verification development for the crop/rainfall question-answering pipeline of
`app_streamlit.py` (Project Samarth).  The Python functions that the claims
concern are translated here as executable Lean definitions over explicit
record lists (pandas dataframes become `List` of records, floats become `Rat`,
missing values become `Option`), and the claims are settled as theorems about
those definitions.
-/

namespace Samarth

attribute [local semireducible] Rat.add Rat.mul Rat.inv Rat.sub

/-- Python `str.lower()` on the ASCII inputs in play. -/
def strLower (s : String) : String := String.mk (s.data.map Char.toLower)

/-- Python `str.upper()` on the ASCII inputs in play. -/
def strUpper (s : String) : String := String.mk (s.data.map Char.toUpper)

/-- Does the char list start with the given pattern? -/
def startsWithCL : List Char → List Char → Bool
  | _, [] => true
  | [], _ :: _ => false
  | c :: cs, p :: ps => c == p && startsWithCL cs ps

/-- Substring containment on char lists (Python `needle in hay`). -/
def containsCL : List Char → List Char → Bool
  | [], needle => needle.isEmpty
  | c :: t, needle => startsWithCL (c :: t) needle || containsCL t needle

/-- Python `needle in hay` on strings. -/
def strContains (hay needle : String) : Bool := containsCL hay.data needle.data

/-- Python regex `\s` on the ASCII inputs in play. -/
def isSpaceC (c : Char) : Bool :=
  c == ' ' || c == '\t' || c == '\n' || c == '\r' || c == '\x0b' || c == '\x0c'

/-- Python `str.strip()` on the ASCII inputs in play. -/
def pyStrip (s : String) : String :=
  String.mk ((((s.data.dropWhile isSpaceC).reverse).dropWhile isSpaceC).reverse)

/-- Lexicographic-by-code-point comparison of char lists: Python string `<`,
written to be kernel-computable. -/
def charListLt : List Char → List Char → Bool
  | [], [] => false
  | [], _ :: _ => true
  | _ :: _, [] => false
  | a :: as, b :: bs => if a < b then true else if b < a then false else charListLt as bs

/-- Python string `<`. -/
def strLtB (a b : String) : Bool := charListLt a.data b.data

/-- Fuel-driven body of `alphaRuns`; the fuel (initially the list length)
dominates the number of steps, each of which consumes at least one char. -/
def alphaRunsGo : Nat → List Char → List (List Char)
  | 0, _ => []
  | _ + 1, [] => []
  | fuel + 1, c :: t =>
    if c.isAlpha then (c :: t.takeWhile Char.isAlpha) :: alphaRunsGo fuel (t.dropWhile Char.isAlpha)
    else alphaRunsGo fuel t

/-- Maximal runs of `[A-Za-z]` characters: Python `re.findall(r"[A-Za-z]+", s)`. -/
def alphaRuns (l : List Char) : List (List Char) := alphaRunsGo l.length l

/-- The alphabetic words of a query: `re.findall(r"[A-Za-z]+", query)`. -/
def queryWords (query : String) : List String :=
  (alphaRuns query.data).map (fun cs => String.mk cs)

/-- Python `str.title()` restricted to a single alphabetic word. -/
def titleCase (s : String) : String :=
  match s.data with
  | [] => ""
  | c :: cs => String.mk (c.toUpper :: cs.map Char.toLower)

/-- Value of a run of decimal digits (Python `int` on the matched group). -/
def digitsToNat (l : List Char) : Nat :=
  l.foldl (fun a c => a * 10 + (c.toNat - '0'.toNat)) 0

/-- `re.search`: try the position matcher at every suffix, leftmost first. -/
def scanFor (m : List Char → Option Nat) : List Char → Option Nat
  | [] => m []
  | c :: t =>
    match m (c :: t) with
    | some k => some k
    | none => scanFor m t

/-- Positional matcher for `top\s+(\d+)`. -/
def matchTopWs (l : List Char) : Option Nat :=
  if startsWithCL l "top".data then
    let r := l.drop 3
    if (r.takeWhile isSpaceC).isEmpty then none
    else
      let d := (r.dropWhile isSpaceC).takeWhile Char.isDigit
      if d.isEmpty then none else some (digitsToNat d)
  else none

/-- Positional matcher for `top[-\s]?(\d+)`. -/
def matchTopOpt (l : List Char) : Option Nat :=
  if startsWithCL l "top".data then
    let r := l.drop 3
    let r2 := match r with
      | c :: t => if c == '-' || isSpaceC c then t else r
      | [] => r
    let d := r2.takeWhile Char.isDigit
    if d.isEmpty then none else some (digitsToNat d)
  else none

/-- Positional matcher for `last\s+(\d+)\s+years`. -/
def matchLastYears (l : List Char) : Option Nat :=
  if startsWithCL l "last".data then
    let r := l.drop 4
    if (r.takeWhile isSpaceC).isEmpty then none
    else
      let r2 := r.dropWhile isSpaceC
      let d := r2.takeWhile Char.isDigit
      if d.isEmpty then none
      else
        let r3 := r2.dropWhile Char.isDigit
        if (r3.takeWhile isSpaceC).isEmpty then none
        else if startsWithCL (r3.dropWhile isSpaceC) "years".data then some (digitsToNat d)
        else none
  else none

/-- Positional matcher for `last\s+(\d+)`. -/
def matchLastAny (l : List Char) : Option Nat :=
  if startsWithCL l "last".data then
    let r := l.drop 4
    if (r.takeWhile isSpaceC).isEmpty then none
    else
      let d := (r.dropWhile isSpaceC).takeWhile Char.isDigit
      if d.isEmpty then none else some (digitsToNat d)
  else none

/-- Positional matcher for `(19|20)\d{2}`, returning the full 4-digit value. -/
def matchYearFull (l : List Char) : Option Nat :=
  match l with
  | a :: b :: c :: d :: _ =>
    if ((a == '1' && b == '9') || (a == '2' && b == '0')) && c.isDigit && d.isDigit then
      some (digitsToNat [a, b, c, d])
    else none
  | _ => none

/-- Fuel-driven body of `findallYearGroups`. -/
def findallYearGroupsGo : Nat → List Char → List Nat
  | 0, _ => []
  | _ + 1, [] => []
  | fuel + 1, c :: t =>
    match matchYearFull (c :: t) with
    | some _ => (if c == '1' then 19 else 20) :: findallYearGroupsGo fuel (t.drop 3)
    | none => findallYearGroupsGo fuel t

/-- Python `re.findall(r"(19|20)\d{2}", s)`: because the pattern has a capture
group, `findall` returns the *group* matches, i.e. the two-digit values 19/20,
not the 4-digit years.  Non-overlapping, left to right. -/
def findallYearGroups (l : List Char) : List Nat := findallYearGroupsGo l.length l

/-! ## difflib model

`difflib.get_close_matches` / `SequenceMatcher.ratio` for the short
vocabulary strings in play (no junk, no autojunk: all strings are far below
the 200-character autojunk threshold). -/

/-- A matching block: start in `a`, start in `b`, length. -/
structure MatchBlock where
  i : Nat
  j : Nat
  size : Nat
deriving Repr, DecidableEq

/-- `SequenceMatcher.find_longest_match` on the region
`a[alo:ahi]` × `b[blo:bhi]` (no junk). -/
def flm (a b : List Char) (alo ahi blo bhi : Nat) : MatchBlock :=
  (((List.range ahi).drop alo).foldl
    (fun acc i =>
      let j2len := acc.1
      let newj2len : Nat → Nat := fun j =>
        if blo ≤ j && j < bhi && (a.get? i).isSome && a.get? i == b.get? j then
          (if blo < j then j2len (j - 1) else 0) + 1
        else 0
      let best2 := ((List.range bhi).drop blo).foldl
        (fun bst j =>
          let k := newj2len j
          if bst.size < k then ⟨i + 1 - k, j + 1 - k, k⟩ else bst)
        acc.2
      (newj2len, best2))
    ((fun _ => 0), ⟨alo, blo, 0⟩)).2

/-- Total size of all matching blocks (`get_matching_blocks` recursion);
the adjacent-block merge step does not change the total. -/
def mbSum (a b : List Char) : Nat → Nat → Nat → Nat → Nat → Nat
  | 0, _, _, _, _ => 0
  | fuel + 1, alo, ahi, blo, bhi =>
    let m := flm a b alo ahi blo bhi
    if m.size == 0 then 0
    else
      m.size + mbSum a b fuel alo m.i blo m.j
        + mbSum a b fuel (m.i + m.size) ahi (m.j + m.size) bhi

/-- Total matched characters between two char lists. -/
def matchTotal (a b : List Char) : Nat :=
  mbSum a b (a.length + b.length + 1) 0 a.length 0 b.length

/-- `SequenceMatcher(None, a, b).ratio() = 2*M/T` as an exact rational. -/
def seqSim (a b : String) : Rat :=
  let t : Nat := a.length + b.length
  if t = 0 then 1 else ((2 * matchTotal a.data b.data : Nat) : Rat) / ((t : Nat) : Rat)

/-- `fuzzy_choice` from the source: `difflib.get_close_matches(name, choices,
n=1, cutoff)` (best match by (score, string), `None` when nothing reaches the
cutoff or inputs are empty/falsy). -/
def fuzzy_choice (name : String) (choices : List String) (cutoff : Rat) : Option String :=
  if name = "" || choices.isEmpty then none
  else
    let scored := choices.filterMap (fun x =>
      let r := seqSim x name
      if cutoff ≤ r then some (r, x) else none)
    (scored.foldl (fun best p =>
      match best with
      | none => some p
      | some q => if q.1 < p.1 ∨ (q.1 = p.1 ∧ strLtB q.2 p.2 = true) then some p
        else some q) none).map
      (fun p => p.2)

/-! ## Data model

Rows of the two normalized datasets.  `production` and `annual` are `Option Rat`:
`none` models a missing / non-numeric / NaN / infinite cell (dropped by
`pd.to_numeric(errors="coerce")` resp. `.replace(inf, nan).dropna()`). -/

structure CropRecord where
  state : String
  district : String
  crop : String
  year : Int
  production : Option Rat
deriving Repr, DecidableEq

structure RainRecord where
  subdivision : String
  year : Int
  annual : Option Rat
deriving Repr, DecidableEq

structure Datasets where
  agri : List CropRecord
  rain : List RainRecord
deriving Repr, DecidableEq

/-- Integer `<` as a boolean. -/
def intLtB (a b : Int) : Bool := decide (a < b)

/-- Sorted insertion keeping the list strictly increasing wrt `lt` (used to
model `sorted(df[col].dropna().unique())`). -/
def sortedInsertU {α : Type} [DecidableEq α] (lt : α → α → Bool) (x : α) : List α → List α
  | [] => [x]
  | y :: ys =>
    if x = y then y :: ys else if lt x y then x :: y :: ys else y :: sortedInsertU lt x ys

/-- `sorted(set(l))` wrt `lt`: ascending, duplicate free. -/
def sortUniqBy {α : Type} [DecidableEq α] (lt : α → α → Bool) (l : List α) : List α :=
  l.foldr (sortedInsertU lt) []

/-- `sorted(set(l))` for strings. -/
def sortUniqStr (l : List String) : List String := sortUniqBy strLtB l

/-- `sorted(set(l))` for integers. -/
def sortUniqInt (l : List Int) : List Int := sortUniqBy intLtB l

/-- `STATES`: sorted distinct values of the agriculture `State` column. -/
def STATES (ds : Datasets) : List String := sortUniqStr (ds.agri.map (fun r => r.state))

/-- `RAIN_SUBDIVS`: sorted distinct values of the rainfall `SUBDIVISION` column. -/
def RAIN_SUBDIVS (ds : Datasets) : List String :=
  sortUniqStr (ds.rain.map (fun r => r.subdivision))

/-- `CROPS`: sorted distinct values of the agriculture `Crop` column. -/
def CROPS (ds : Datasets) : List String := sortUniqStr (ds.agri.map (fun r => r.crop))

/-- `AGRI_YEARS`: sorted distinct values of `Crop_Year`. -/
def AGRI_YEARS (ds : Datasets) : List Int := sortUniqInt (ds.agri.map (fun r => r.year))

/-- `RAIN_YEARS`: sorted distinct values of `YEAR`. -/
def RAIN_YEARS (ds : Datasets) : List Int := sortUniqInt (ds.rain.map (fun r => r.year))

/-- `sorted(set(AGRI_YEARS) | set(RAIN_YEARS))`. -/
def unionYears (ds : Datasets) : List Int := sortUniqInt (AGRI_YEARS ds ++ RAIN_YEARS ds)

/-- Stable insertion for `sorted(..., key=lambda x: -len(x))`: `x` goes in
front of the first entry whose length is `≤` its own, so that entries of equal
length keep their original relative order. -/
def insertDescLen (x : String) : List String → List String
  | [] => [x]
  | y :: ys => if y.length ≤ x.length then x :: y :: ys else y :: insertDescLen x ys

/-- Python's stable `sorted(l, key=lambda x: -len(x))`. -/
def sortDescLen (l : List String) : List String := l.foldr insertDescLen []

/-! ## Entity extractors -/

/-- First loop of `extract_states` (and its third loop, over the rainfall
subdivisions): scan the candidate names, accept a name whose lowercase form is
a substring of the lowered query and is not yet accepted, returning as soon as
two names have been accepted. -/
def stateScanLoop (qlow : String) : List String → List String → List String
  | found, [] => found
  | found, s :: rest =>
    if strContains qlow (strLower s) ∧ s ∉ found then
      let f := found ++ [s]
      if 2 ≤ f.length then f else stateScanLoop qlow f rest
    else stateScanLoop qlow found rest

/-- Second loop of `extract_states`: fuzzy-match every title-cased query word
against the state vocabulary with cutoff 0.75, skipping names already found,
returning as soon as two names have been accepted. -/
def fuzzyWordLoop (states : List String) : List String → List String → List String
  | found, [] => found
  | found, w :: rest =>
    match fuzzy_choice (titleCase w) states (3 / 4) with
    | some m =>
      if m ∉ found then
        let f := found ++ [m]
        if 2 ≤ f.length then f else fuzzyWordLoop states f rest
      else fuzzyWordLoop states found rest
    | none => fuzzyWordLoop states found rest

/-- `extract_states(query)`: 0..2 state-like strings via direct or fuzzy match. -/
def extract_states (ds : Datasets) (query : String) : List String :=
  let qlow := strLower query
  let f1 := stateScanLoop qlow [] (sortDescLen (STATES ds))
  if 2 ≤ f1.length then f1
  else
    let f2 := fuzzyWordLoop (STATES ds) f1 (queryWords query)
    if 2 ≤ f2.length then f2
    else stateScanLoop qlow f2 (sortDescLen (RAIN_SUBDIVS ds))

/-- Substring scan of `extract_crop` (longest names first). -/
def cropScan (qlow : String) : List String → Option String
  | [] => none
  | c :: rest => if strContains qlow (strLower c) then some c else cropScan qlow rest

/-- Fuzzy word scan of `extract_crop`. -/
def fuzzyCropWords (crops : List String) : List String → Option String
  | [] => none
  | w :: ws =>
    match fuzzy_choice (titleCase w) crops (3 / 4) with
    | some m => some m
    | none => fuzzyCropWords crops ws

/-- `extract_crop(query)`. -/
def extract_crop (ds : Datasets) (query : String) : Option String :=
  match cropScan (strLower query) (sortDescLen (CROPS ds)) with
  | some c => some c
  | none => fuzzyCropWords (CROPS ds) (queryWords query)

/-- `extract_top_m(query, default=3)`: `top\s+(\d+)`, then `top[-\s]?(\d+)`,
else the default.  No clamping. -/
def extract_top_m (query : String) (default : Nat) : Nat :=
  match scanFor matchTopWs (strLower query).data with
  | some n => n
  | none =>
    match scanFor matchTopOpt (strLower query).data with
    | some n => n
    | none => default

/-- The window size resolved by `extract_last_n_years`: the first
`last\s+(\d+)\s+years` match, else the first `last\s+(\d+)` match, else the
default; clamped to `[1, limit]`. -/
def lastNCount (query : String) (default limit : Nat) : Nat :=
  let n :=
    match scanFor matchLastYears (strLower query).data with
    | some n => n
    | none =>
      match scanFor matchLastAny (strLower query).data with
      | some n => n
      | none => default
  max 1 (min n limit)

/-- `extract_last_n_years(query, default=3, limit=10)`: the `n` most recent
years of the dataset-year union, ascending; when the union is empty, fall back
to `re.findall(r"(19|20)\d{2}", query)` — whose capture group makes
`int(explicit[-1])` evaluate to 19 or 20, not the 4-digit year. -/
def extract_last_n_years (ds : Datasets) (query : String) (default limit : Nat) : List Int :=
  let n := lastNCount query default limit
  let years := unionYears ds
  if years = [] then
    match (findallYearGroups query.data).getLast? with
    | some g => [(g : Int)]
    | none => []
  else (years.reverse.take n).reverse

/-- `extract_year_from_query(query)`: first `(19|20)\d{2}` match as an int. -/
def extract_year_from_query (query : String) : Option Int :=
  (scanFor matchYearFull query.data).map (fun n => (n : Int))

/-- Lines 294–299 of `answer_query`: the year window the pipeline actually
uses.  The explicit year is consulted only when `extract_last_n_years`
returned the empty list. -/
def resolved_years (ds : Datasets) (query : String) : List Int :=
  let years := extract_last_n_years ds query 3 10
  match extract_year_from_query query with
  | some ey => if years = [] then [ey] else years
  | none => years

/-! ## Aggregation engine -/

/-- `to_numeric(..., errors="coerce").fillna(0)` on a production cell. -/
def prodVal (r : CropRecord) : Rat := r.production.getD 0

/-- Mean over the numeric `ANNUAL` values of the rows
(`astype(float).replace(inf, nan).dropna().mean()`); `none` models the NaN
mean of an all-missing (or empty) selection. -/
def rainMean (rows : List RainRecord) : Option Rat :=
  let vals := rows.filterMap (fun r => r.annual)
  if vals = [] then none else some (vals.sum / (vals.length : Rat))

/-- The fuzzy subdivision match computed once per `compute_avg_rainfall_for_years`
call: `fuzzy_choice(state.upper(), RAIN_SUBDIVS, cutoff=0.6) if RAIN_SUBDIVS else None`. -/
def subMatchOf (ds : Datasets) (state : String) : Option String :=
  if RAIN_SUBDIVS ds ≠ [] then fuzzy_choice (strUpper state) (RAIN_SUBDIVS ds) (3 / 5) else none

/-- Tier 1 rows: `rain_df[(SUBDIVISION.str.upper() == sub_match) & (YEAR == y)]`. -/
def tier1Rows (ds : Datasets) (subMatch : Option String) (y : Int) : List RainRecord :=
  match subMatch with
  | some sm => ds.rain.filter (fun r => strUpper r.subdivision == sm && r.year == y)
  | none => []

/-- Tier 2 rows: `rain_df[SUBDIVISION.str.contains(state, case=False) & (YEAR == y)]`. -/
def tier2Rows (ds : Datasets) (state : String) (y : Int) : List RainRecord :=
  ds.rain.filter (fun r => strContains (strLower r.subdivision) (strLower state) && r.year == y)

/-- Tier 3 rows (the "national avg fallback"): `rain_df[YEAR == y]`. -/
def tier3Rows (ds : Datasets) (y : Int) : List RainRecord :=
  ds.rain.filter (fun r => r.year == y)

/-- Per-year body of `compute_avg_rainfall_for_years`: value for the year plus
the provenance entries appended for it.  A tier whose row selection is
non-empty fixes `val` (possibly to a NaN that later renders as `None`) and the
remaining tiers are not consulted. -/
def computeAvgForYear (ds : Datasets) (state : String) (subMatch : Option String) (y : Int) :
    Option Rat × List String :=
  if tier1Rows ds subMatch y ≠ [] then
    (rainMean (tier1Rows ds subMatch y),
      ["rain_df[(SUBDIVISION==\x27" ++ subMatch.getD "" ++ "\x27) & (YEAR==" ++ toString y
        ++ ")][\x27ANNUAL\x27]"])
  else if tier2Rows ds state y ≠ [] then
    (rainMean (tier2Rows ds state y),
      ["rain_df[SUBDIVISION contains \x27" ++ state ++ "\x27 & YEAR==" ++ toString y
        ++ "][\x27ANNUAL\x27]"])
  else if tier3Rows ds y ≠ [] then
    (rainMean (tier3Rows ds y),
      ["rain_df[YEAR==" ++ toString y
        ++ "][\x27ANNUAL\x27] (state match failed, used national avg fallback)"])
  else (none, [])

/-- `compute_avg_rainfall_for_years(state, years)`: year-indexed averages
(as an association list in the order of `years`) plus provenance. -/
def compute_avg_rainfall_for_years (ds : Datasets) (state : String) (years : List Int) :
    List (Int × Option Rat) × List String :=
  let subMatch := subMatchOf ds state
  ((years.map fun y => (y, (computeAvgForYear ds state subMatch y).1)),
    (years.map fun y => (computeAvgForYear ds state subMatch y).2).flatten)

/-- `data.get(y)` on the year-indexed result. -/
def rainGet (data : List (Int × Option Rat)) (y : Int) : Option Rat :=
  match data.find? (fun p => p.1 == y) with
  | some p => p.2
  | none => none

/-- Python `f"{years}"`. -/
def listRepr (l : List Int) : String :=
  "[" ++ String.intercalate ", " (l.map toString) ++ "]"

/-- Rows of `agri_df[State contains state & Crop_Year in years]`. -/
def topSubset (ds : Datasets) (state : String) (years : List Int) : List CropRecord :=
  ds.agri.filter (fun r => strContains (strLower r.state) (strLower state) && years.contains r.year)

/-- `subset.groupby(key)[...].sum()`: keys ascending (pandas sorts group keys),
each with the sum of the coerced production values of its rows. -/
def groupSumBy (key : CropRecord → String) (rows : List CropRecord) : List (String × Rat) :=
  (sortUniqStr (rows.map key)).map
    (fun k => (k, ((rows.filter (fun r => key r == k)).map prodVal).sum))

/-- Insertion step of the model of `sort_values(ascending=False)` (see
`sortDescVal`): `x` goes in front of the first entry whose value is `≤` its
own. -/
def insertDescVal (x : String × Rat) : List (String × Rat) → List (String × Rat)
  | [] => [x]
  | y :: ys => if y.2 ≤ x.2 then x :: y :: ys else y :: insertDescVal x ys

/-- Model of `sort_values(ascending=False)`.  pandas sorts with numpy's
default `kind='quicksort'`, which guarantees NO relative order for equal
values: introsort is unstable above its insertion-sort threshold, and the
descending path has ordered equal values differently across pandas versions.
An executable model must nevertheless fix some order; this one keeps
equal-valued entries in their incoming (ascending group-key) order.  That
choice is arbitrary, and no theorem in this file depends on it: the only
facts proved about this sort (`sortDescVal_val_pairwise`,
`top_crops_desc_bounded`) are tie-order independent, and the concrete inputs
evaluated by the witness theorems never reach a tie in this sort. -/
def sortDescVal (l : List (String × Rat)) : List (String × Rat) := l.foldr insertDescVal []

/-- `compute_top_crops_for_state_and_years(state, years, top_m)`.  The
column-presence guard (`"State" in df.columns`) holds exactly when the
agriculture dataset is non-empty, the loader having canonicalized the schema. -/
def compute_top_crops_for_state_and_years (ds : Datasets) (state : String) (years : List Int)
    (top_m : Nat) : List (String × Rat) × List String :=
  if ds.agri = [] then ([], [])
  else
    let subset := topSubset ds state years
    let prov := ["agri_df[State contains \x27" ++ state ++ "\x27 & Crop_Year in "
      ++ listRepr years ++ "]"]
    if subset = [] then ([], prov)
    else ((sortDescVal (groupSumBy (fun r => r.crop) subset)).take top_m, prov)

/-- Rows of `agri_df[State contains state & Crop == crop (case-insensitive) &
Crop_Year == year]`. -/
def deSubset (ds : Datasets) (state crop : String) (year : Int) : List CropRecord :=
  ds.agri.filter (fun r => strContains (strLower r.state) (strLower state)
    && strLower r.crop == strLower crop && r.year == year)

/-- `grouped.idxmax()` paired with its value: the first entry (in series
order) attaining the maximum. -/
def idxmaxFirst : List (String × Rat) → Option (String × Rat)
  | [] => none
  | p :: ps =>
    match idxmaxFirst ps with
    | none => some p
    | some q => if p.2 < q.2 then some q else some p

/-- `grouped.idxmin()` paired with its value: the first entry (in series
order) attaining the minimum. -/
def idxminFirst : List (String × Rat) → Option (String × Rat)
  | [] => none
  | p :: ps =>
    match idxminFirst ps with
    | none => some p
    | some q => if q.2 < p.2 then some q else some p

/-- `district_extremes_for_crop(state, crop, year)`. -/
def district_extremes_for_crop (ds : Datasets) (state crop : String) (year : Int) :
    Option (String × Rat) × Option (String × Rat) × List String :=
  if ds.agri = [] then (none, none, [])
  else
    let subset := deSubset ds state crop year
    let prov := ["agri_df[State contains \x27" ++ state ++ "\x27 & Crop==\x27" ++ crop
      ++ "\x27 & Crop_Year==" ++ toString year ++ "]"]
    if subset = [] then (none, none, prov)
    else
      let grouped := groupSumBy (fun r => r.district) subset
      (idxmaxFirst grouped, idxminFirst grouped, prov)

/-! ## Answer assembly -/

/-- Zero-padding on the left, for fractional digits. -/
def padZeros (w : Nat) (s : String) : String :=
  if s.length < w then String.mk (List.replicate (w - s.length) '0') ++ s else s

/-- Python `f"{q:.2f}"`-style fixed-point rendering of a rational (the values
displayed by the app are non-negative). -/
def fmtFixed (digits : Nat) (q : Rat) : String :=
  let p : Int := (10 : Int) ^ digits
  let n : Int := round (q * (p : Rat))
  toString (n / p) ++ "." ++ padZeros digits (toString (n % p).natAbs)

/-- `f"{v:.2f} mm" if v is not None else "N/A"`. -/
def fmtOptMm : Option Rat → String
  | some q => fmtFixed 2 q ++ " mm"
  | none => "N/A"

/-- Python `sep.join(parts)`. -/
def joinSep (sep : String) : List String → String
  | [] => ""
  | [x] => x
  | x :: y :: t => x ++ sep ++ joinSep sep (y :: t)

/-- Python truthiness of the resolved crop (`None` and `""` are falsy). -/
def cropTruthy : Option String → Bool
  | some c => !(c == "")
  | none => false

/-- Python `max` over a list. -/
def maxOfList : List Int → Option Int
  | [] => none
  | x :: xs =>
    match maxOfList xs with
    | none => some x
    | some m => some (max x m)

/-- One row of the two-state rainfall comparison:
`f"- {y}: **{s1}**: {v1s}   |   **{s2}**: {v2s}"`. -/
def compareRow (s1 s2 : String) (r1 r2 : List (Int × Option Rat)) (y : Int) : String :=
  "- " ++ toString y ++ ": **" ++ s1 ++ "**: " ++ fmtOptMm (rainGet r1 y)
    ++ "   |   **" ++ s2 ++ "**: " ++ fmtOptMm (rainGet r2 y)

/-- Header of the two-state crops comparison section. -/
def cropsCompareHeader (top_m : Nat) (years : List Int) : String :=
  "\n🌾 **Top " ++ toString top_m ++ " crops comparison ("
    ++ joinSep ", " (years.map toString) ++ ")**"

/-- Per-state line of the two-state crops comparison section. -/
def cropsCompareLine (s : String) (top : List (String × Rat)) : String :=
  if top = [] then "- **" ++ s ++ "**: No crop data found for selection."
  else "- **" ++ s ++ "**: "
    ++ joinSep ", " (top.map fun p => p.1 ++ " (" ++ fmtFixed 1 p.2 ++ " t)")

/-- Header of the single-state top-crops section. -/
def singleCropsHeader (top_m : Nat) (s : String) (years : List Int) : String :=
  "\n🌾 **Top " ++ toString top_m ++ " crops in " ++ s ++ " (aggregated over "
    ++ joinSep ", " (years.map toString) ++ ")**"

/-- Body line of the single-state top-crops section. -/
def singleCropsLine (top : List (String × Rat)) : String :=
  if top = [] then " - No crop production found for this selection."
  else " - " ++ joinSep ", " (top.map fun p => p.1 ++ " (" ++ fmtFixed 1 p.2 ++ " tonnes)")

/-- Header of the district-extremes section. -/
def districtHeader (crop s : String) (uy : Int) : String :=
  "\n📍 **District-level extremes for " ++ crop ++ " in " ++ s ++ " ("
    ++ toString uy ++ ")**"

/-- Lines of the district-extremes section. -/
def districtLines (crop s : String) (uy : Int) (high low : Option (String × Rat)) :
    List String :=
  match high, low with
  | some h, some l =>
    [districtHeader crop s uy,
      "- Highest production: " ++ h.1 ++ " — " ++ fmtFixed 1 h.2 ++ " tonnes",
      "- Lowest production: " ++ l.1 ++ " — " ++ fmtFixed 1 l.2 ++ " tonnes"]
  | _, _ => [districtHeader crop s uy, "- No district-level data found for this selection."]

/-- The structured second component of `answer_query`'s return value:
the bare string `""`, or the dict with a comparison table, or the dict with
single-state rain data. -/
inductive Meta where
  | plain (s : String)
  | table (prov : List String) (s1 s2 : String) (rows : List (Int × Option Rat × Option Rat))
  | rain (prov : List String) (rainData : List (Int × Option Rat))
deriving Repr, DecidableEq

/-- The guidance message returned when no state is detected. -/
def noStateMsg : String :=
  "⚠️ I couldn\x27t detect a state name in your question. Please mention one or two Indian states (e.g., \x27Maharashtra\x27, \x27Kerala\x27)."

/-- The year list a branch of `answer_query` actually iterates over:
`resolved_years`, recomputed by `extract_last_n_years` when empty. -/
def answerYears (ds : Datasets) (query : String) : List Int :=
  let years := resolved_years ds query
  if years = [] then extract_last_n_years ds query 3 10 else years

/-- Header line of the rainfall-comparison section. -/
def compareHeader (years : List Int) : String :=
  "🌧️ **Rainfall comparison — " ++ joinSep ", " (years.map toString) ++ "**"

/-- Crops sub-section of the two-state branch (lines, provenance); empty when
neither the word "crop" nor a resolved crop is present. -/
def compareCropsParts (ds : Datasets) (query : String) (s1 s2 : String) (years : List Int)
    (top_m : Nat) : List String × List String :=
  if strContains (strLower query) "crop" || cropTruthy (extract_crop ds query) then
    ([cropsCompareHeader top_m years,
      cropsCompareLine s1 (compute_top_crops_for_state_and_years ds s1 years top_m).1,
      cropsCompareLine s2 (compute_top_crops_for_state_and_years ds s2 years top_m).1],
      (compute_top_crops_for_state_and_years ds s1 years top_m).2
        ++ (compute_top_crops_for_state_and_years ds s2 years top_m).2)
  else ([], [])

/-- The two-state comparison branch of `answer_query`. -/
def compareBranch (ds : Datasets) (query : String) (s1 s2 : String) : String × Meta :=
  let top_m := extract_top_m query 3
  let years := answerYears ds query
  let rain1 := (compute_avg_rainfall_for_years ds s1 years).1
  let p1 := (compute_avg_rainfall_for_years ds s1 years).2
  let rain2 := (compute_avg_rainfall_for_years ds s2 years).1
  let p2 := (compute_avg_rainfall_for_years ds s2 years).2
  let tableRows := years.map (fun y => (y, rainGet rain1 y, rainGet rain2 y))
  let provBase := p1 ++ p2 ++ ["Visualization: bar chart of annual rainfall for "
    ++ s1 ++ " and " ++ s2 ++ " over " ++ listRepr years]
  let cps := compareCropsParts ds query s1 s2 years top_m
  (joinSep "\n" ((compareHeader years :: years.map (compareRow s1 s2 rain1 rain2)) ++ cps.1),
    Meta.table (provBase ++ cps.2) s1 s2 tableRows)

/-- The single-state branch of `answer_query`. -/
def singleBranch (ds : Datasets) (query : String) (s : String) : String × Meta :=
  let crop := extract_crop ds query
  let top_m := extract_top_m query 3
  let years := answerYears ds query
  let rainData := (compute_avg_rainfall_for_years ds s years).1
  let p := (compute_avg_rainfall_for_years ds s years).2
  let base := ("🌧️ **Average annual rainfall for " ++ s ++ "**")
    :: years.map (fun y => "- " ++ toString y ++ ": " ++ fmtOptMm (rainGet rainData y))
  let cps :=
    if strContains (strLower query) "crop" || cropTruthy crop
        || strContains (strLower query) "top" then
      let top := (compute_top_crops_for_state_and_years ds s years top_m).1
      let ptop := (compute_top_crops_for_state_and_years ds s years top_m).2
      ([singleCropsHeader top_m s years, singleCropsLine top], ptop)
    else ([], [])
  let dps :=
    match crop with
    | some c =>
      if cropTruthy crop && (strContains (strLower query) "highest"
          || strContains (strLower query) "lowest" || strContains (strLower query) "district") then
        let useYear :=
          match years.getLast? with
          | some y => some y
          | none => maxOfList (AGRI_YEARS ds)
        match useYear with
        | some uy =>
          if uy ≠ 0 then
            let de := district_extremes_for_crop ds s c uy
            (districtLines c s uy de.1 de.2.1, de.2.2)
          else ([], [])
        | none => ([], [])
      else ([], [])
    | none => ([], [])
  (joinSep "\n" (base ++ cps.1 ++ dps.1), Meta.rain (p ++ cps.2 ++ dps.2) rainData)

/-- `answer_query(query)`: the full pipeline, returning the rendered markdown
answer and the structured metadata. -/
def answer_query (ds : Datasets) (query0 : String) : String × Meta :=
  let query := pyStrip query0
  if query = "" then ("Please type a question.", Meta.plain "")
  else
    match extract_states ds query with
    | s1 :: s2 :: _ => compareBranch ds query s1 s2
    | [s] => singleBranch ds query s
    | [] => (noStateMsg, Meta.plain "")

/-! ## Order and permutation lemmas for the sorting helpers -/

theorem mem_sortedInsertU {α : Type} [DecidableEq α] {lt : α → α → Bool} {a x : α}
    {l : List α} : a ∈ sortedInsertU lt x l ↔ a = x ∨ a ∈ l := by
  induction l with
  | nil => simp [sortedInsertU]
  | cons y ys ih =>
    by_cases hxy : x = y
    · subst hxy
      simp only [sortedInsertU, if_pos rfl]
      constructor
      · intro h
        exact Or.inr h
      · intro h
        rcases h with h | h
        · exact h ▸ List.mem_cons_self _ _
        · exact h
    · by_cases hlt : lt x y
      · simp [sortedInsertU, if_neg hxy, if_pos hlt, List.mem_cons]
      · simp only [sortedInsertU, if_neg hxy, if_neg hlt, List.mem_cons, ih]
        tauto

theorem pairwise_sortedInsertU {α : Type} [DecidableEq α] {lt : α → α → Bool}
    (htrans : ∀ a b c, lt a b = true → lt b c = true → lt a c = true)
    (htotal : ∀ a b, a ≠ b → ¬ lt a b = true → lt b a = true)
    {x : α} {l : List α} (h : l.Pairwise (fun a b => lt a b = true)) :
    (sortedInsertU lt x l).Pairwise (fun a b => lt a b = true) := by
  induction l with
  | nil => simp [sortedInsertU]
  | cons y ys ih =>
    rcases List.pairwise_cons.mp h with ⟨hy, hys⟩
    by_cases hxy : x = y
    · subst hxy
      simpa [sortedInsertU] using h
    · by_cases hlt : lt x y
      · simp only [sortedInsertU, if_neg hxy, if_pos hlt]
        refine List.pairwise_cons.mpr ⟨?_, h⟩
        intro b hb
        rcases List.mem_cons.mp hb with hb | hb
        · exact hb ▸ hlt
        · exact htrans _ _ _ hlt (hy b hb)
      · have hyx : lt y x = true := htotal x y hxy hlt
        simp only [sortedInsertU, if_neg hxy, if_neg hlt]
        refine List.pairwise_cons.mpr ⟨?_, ih hys⟩
        intro b hb
        rcases mem_sortedInsertU.mp hb with hb | hb
        · exact hb ▸ hyx
        · exact hy b hb

theorem pairwise_sortUniqBy {α : Type} [DecidableEq α] {lt : α → α → Bool}
    (htrans : ∀ a b c, lt a b = true → lt b c = true → lt a c = true)
    (htotal : ∀ a b, a ≠ b → ¬ lt a b = true → lt b a = true) (l : List α) :
    (sortUniqBy lt l).Pairwise (fun a b => lt a b = true) := by
  induction l with
  | nil => simp [sortUniqBy]
  | cons x xs ih => exact pairwise_sortedInsertU htrans htotal ih

theorem mem_sortUniqBy {α : Type} [DecidableEq α] {lt : α → α → Bool} {a : α} {l : List α} :
    a ∈ sortUniqBy lt l ↔ a ∈ l := by
  induction l with
  | nil => simp [sortUniqBy]
  | cons x xs ih =>
    show a ∈ sortedInsertU lt x (sortUniqBy lt xs) ↔ _
    rw [mem_sortedInsertU, ih, List.mem_cons]

/-- Bridge between the computable comparison and the core list order. -/
theorem charListLt_iff : ∀ {l1 l2 : List Char}, charListLt l1 l2 = true ↔ l1 < l2
  | [], [] => by
    constructor
    · intro h
      exact absurd h (by simp [charListLt])
    · intro h
      cases h
  | [], b :: bs => by
    constructor
    · intro _
      exact List.Lex.nil
    · intro _
      rfl
  | a :: as, [] => by
    constructor
    · intro h
      exact absurd h (by simp [charListLt])
    · intro h
      cases h
  | a :: as, b :: bs => by
    simp only [charListLt]
    by_cases hab : a < b
    · rw [if_pos hab]
      constructor
      · intro _
        exact List.Lex.rel hab
      · intro _
        rfl
    · rw [if_neg hab]
      by_cases hba : b < a
      · rw [if_pos hba]
        constructor
        · intro h
          exact absurd h (by simp)
        · intro h
          cases h with
          | cons h3 => exact absurd hba (lt_irrefl a)
          | rel hh => exact absurd hh hab
      · rw [if_neg hba, charListLt_iff]
        have heq : a = b := le_antisymm (le_of_not_lt hba) (le_of_not_lt hab)
        subst heq
        constructor
        · intro h
          exact List.Lex.cons h
        · intro h
          cases h with
          | cons h3 => exact h3
          | rel hh => exact absurd hh hab

theorem strLtB_iff {a b : String} : strLtB a b = true ↔ a < b := by
  rw [String.lt_iff_toList_lt]
  exact charListLt_iff

theorem strLtB_trans : ∀ a b c : String,
    strLtB a b = true → strLtB b c = true → strLtB a c = true :=
  fun _ _ _ h1 h2 => strLtB_iff.mpr (lt_trans (strLtB_iff.mp h1) (strLtB_iff.mp h2))

theorem strLtB_total : ∀ a b : String, a ≠ b → ¬ strLtB a b = true → strLtB b a = true := by
  intro a b hne hnlt
  apply strLtB_iff.mpr
  rcases lt_trichotomy a b with h | h | h
  · exact absurd (strLtB_iff.mpr h) hnlt
  · exact absurd h hne
  · exact h

theorem intLtB_iff {a b : Int} : intLtB a b = true ↔ a < b := by
  simp [intLtB]

theorem intLtB_trans : ∀ a b c : Int,
    intLtB a b = true → intLtB b c = true → intLtB a c = true :=
  fun _ _ _ h1 h2 => intLtB_iff.mpr (lt_trans (intLtB_iff.mp h1) (intLtB_iff.mp h2))

theorem intLtB_total : ∀ a b : Int, a ≠ b → ¬ intLtB a b = true → intLtB b a = true := by
  intro a b hne hnlt
  apply intLtB_iff.mpr
  rcases lt_trichotomy a b with h | h | h
  · exact absurd (intLtB_iff.mpr h) hnlt
  · exact absurd h hne
  · exact h

theorem pairwise_sortUniqStr (l : List String) : (sortUniqStr l).Pairwise (· < ·) :=
  (pairwise_sortUniqBy strLtB_trans strLtB_total l).imp (fun h => strLtB_iff.mp h)

theorem mem_sortUniqStr {a : String} {l : List String} : a ∈ sortUniqStr l ↔ a ∈ l :=
  mem_sortUniqBy

theorem nodup_sortUniqStr (l : List String) : (sortUniqStr l).Nodup :=
  (pairwise_sortUniqStr l).imp (fun h => ne_of_lt h)

theorem pairwise_sortUniqInt (l : List Int) : (sortUniqInt l).Pairwise (· < ·) :=
  (pairwise_sortUniqBy intLtB_trans intLtB_total l).imp (fun h => intLtB_iff.mp h)

theorem mem_sortUniqInt {a : Int} {l : List Int} : a ∈ sortUniqInt l ↔ a ∈ l :=
  mem_sortUniqBy

theorem insertDescLen_perm (x : String) (l : List String) :
    (insertDescLen x l).Perm (x :: l) := by
  induction l with
  | nil => exact List.Perm.refl _
  | cons y ys ih =>
    by_cases h : y.length ≤ x.length
    · simp [insertDescLen, h]
    · simp only [insertDescLen, if_neg h]
      exact (ih.cons y).trans (List.Perm.swap x y ys)

theorem sortDescLen_perm (l : List String) : (sortDescLen l).Perm l := by
  induction l with
  | nil => exact List.Perm.refl _
  | cons x xs ih =>
    show (insertDescLen x (sortDescLen xs)).Perm _
    exact (insertDescLen_perm x (sortDescLen xs)).trans (ih.cons x)

theorem nodup_sortDescLen {l : List String} (h : l.Nodup) : (sortDescLen l).Nodup :=
  ((sortDescLen_perm l).nodup_iff).mpr h

/-! ## Spec-side description of location resolution (for C4) -/

/-- Accept new names in order, skipping names already accepted. -/
def addNew (found : List String) (xs : List String) : List String :=
  xs.foldl (fun acc x => if x ∈ acc then acc else acc ++ [x]) found

theorem addNew_nil (found : List String) : addNew found [] = found := rfl

theorem addNew_cons (found : List String) (x : String) (xs : List String) :
    addNew found (x :: xs)
      = if x ∈ found then addNew found xs else addNew (found ++ [x]) xs := by
  by_cases h : x ∈ found <;> simp [addNew, h]

theorem addNew_append_exists (found : List String) (xs : List String) :
    ∃ t, addNew found xs = found ++ t := by
  induction xs generalizing found with
  | nil => exact ⟨[], by simp [addNew_nil]⟩
  | cons x xs ih =>
    rw [addNew_cons]
    by_cases h : x ∈ found
    · rw [if_pos h]
      exact ih found
    · rw [if_neg h]
      rcases ih (found ++ [x]) with ⟨t, ht⟩
      exact ⟨x :: t, by simp [ht]⟩

theorem addNew_nil_of_nodup {xs : List String} (h : xs.Nodup) : addNew [] xs = xs := by
  suffices H : ∀ (found : List String), xs.Nodup → (∀ a ∈ xs, a ∉ found) →
      addNew found xs = found ++ xs by
    simpa using H [] h (by simp)
  clear h
  induction xs with
  | nil => intro found _ _; simp [addNew_nil]
  | cons x xs ih =>
    intro found hnd hdis
    rw [addNew_cons, if_neg (hdis x (List.mem_cons_self _ _))]
    have h1 : xs.Nodup := hnd.of_cons
    have h2 : ∀ a ∈ xs, a ∉ found ++ [x] := by
      intro a ha
      simp only [List.mem_append, List.mem_singleton]
      rintro (hc | hc)
      · exact hdis a (List.mem_cons_of_mem _ ha) hc
      · subst hc
        exact (List.nodup_cons.mp hnd).1 ha
    rw [ih (found ++ [x]) h1 h2]
    simp

/-- The substring-scan loops return the first two accepted names:
scanning with early exit equals filtering, deduplicating against the
accumulator, and truncating to two. -/
theorem stateScanLoop_eq (qlow : String) (found : List String) (xs : List String)
    (h : found.length ≤ 1) :
    stateScanLoop qlow found xs
      = (addNew found (xs.filter (fun s => strContains qlow (strLower s)))).take 2 := by
  induction xs generalizing found with
  | nil =>
    rw [List.filter_nil, addNew_nil, List.take_of_length_le (le_trans h (by norm_num))]
    rfl
  | cons s xs ih =>
    by_cases hp : strContains qlow (strLower s)
    · have hfil : List.filter (fun t : String => strContains qlow (strLower t)) (s :: xs)
          = s :: List.filter (fun t : String => strContains qlow (strLower t)) xs :=
        List.filter_cons_of_pos hp
      by_cases hc : s ∈ found
      · rw [stateScanLoop, if_neg (fun hk => hk.2 hc), hfil,
          addNew_cons, if_pos hc]
        exact ih found h
      · rw [stateScanLoop, if_pos ⟨hp, hc⟩, hfil, addNew_cons,
          if_neg hc]
        by_cases hl : 2 ≤ (found ++ [s]).length
        · rw [if_pos hl]
          rcases addNew_append_exists (found ++ [s]) (xs.filter _) with ⟨t, ht⟩
          have hlen : (found ++ [s]).length = 2 := by
            simp only [List.length_append, List.length_singleton] at hl ⊢
            omega
          rw [ht, List.take_append_eq_append_take, hlen,
            List.take_of_length_le (by omega), Nat.sub_self, List.take_zero,
            List.append_nil]
        · rw [if_neg hl]
          apply ih
          simp only [List.length_append, List.length_singleton] at hl ⊢
          omega
    · have hfil : List.filter (fun t : String => strContains qlow (strLower t)) (s :: xs)
          = List.filter (fun t : String => strContains qlow (strLower t)) xs :=
        List.filter_cons_of_neg hp
      rw [stateScanLoop, if_neg (fun hk => hp hk.1), hfil]
      exact ih found h

/-- Same characterization for the fuzzy word loop. -/
theorem fuzzyWordLoop_eq (states : List String) (found ws : List String)
    (h : found.length ≤ 1) :
    fuzzyWordLoop states found ws
      = (addNew found (ws.filterMap
          (fun w => fuzzy_choice (titleCase w) states (3 / 4)))).take 2 := by
  induction ws generalizing found with
  | nil =>
    rw [List.filterMap_nil, addNew_nil, List.take_of_length_le (le_trans h (by norm_num))]
    rfl
  | cons w ws ih =>
    rcases hf : fuzzy_choice (titleCase w) states (3 / 4) with _ | m
    · have hfil : List.filterMap (fun v => fuzzy_choice (titleCase v) states (3 / 4)) (w :: ws)
          = List.filterMap (fun v => fuzzy_choice (titleCase v) states (3 / 4)) ws :=
        List.filterMap_cons_none hf
      rw [fuzzyWordLoop, hf, hfil]
      exact ih found h
    · have hfil : List.filterMap (fun v => fuzzy_choice (titleCase v) states (3 / 4)) (w :: ws)
          = m :: List.filterMap (fun v => fuzzy_choice (titleCase v) states (3 / 4)) ws :=
        List.filterMap_cons_some hf
      rw [fuzzyWordLoop, hf, hfil, addNew_cons]
      show (if m ∉ found then
            if 2 ≤ (found ++ [m]).length then found ++ [m]
            else fuzzyWordLoop states (found ++ [m]) ws
          else fuzzyWordLoop states found ws) = _
      by_cases hc : m ∈ found
      · rw [if_neg (not_not_intro hc), if_pos hc]
        exact ih found h
      · rw [if_pos hc, if_neg hc]
        by_cases hl : 2 ≤ (found ++ [m]).length
        · rw [if_pos hl]
          rcases addNew_append_exists (found ++ [m]) (ws.filterMap _) with ⟨t, ht⟩
          have hlen : (found ++ [m]).length = 2 := by
            simp only [List.length_append, List.length_singleton] at hl ⊢
            omega
          rw [ht, List.take_append_eq_append_take, hlen,
            List.take_of_length_le (by omega), Nat.sub_self, List.take_zero,
            List.append_nil]
        · rw [if_neg hl]
          apply ih
          simp only [List.length_append, List.length_singleton] at hl ⊢
          omega

/-- Spec step 1: substring scan of the state vocabulary sorted by descending
name length against the lowercased query, stopping at two accepted names. -/
def locationTier1 (ds : Datasets) (query : String) : List String :=
  ((sortDescLen (STATES ds)).filter (fun s => strContains (strLower query) (strLower s))).take 2

/-- Spec step 2: fuzzy matching of each title-cased alphabetic query word
against the state vocabulary at threshold 0.75, accepting matches not already
found, still capped at two. -/
def locationTier2 (ds : Datasets) (query : String) (found : List String) : List String :=
  (addNew found ((queryWords query).filterMap
    (fun w => fuzzy_choice (titleCase w) (STATES ds) (3 / 4)))).take 2

/-- Spec step 3: the longest-first substring scan repeated against the
rainfall-subdivision vocabulary. -/
def locationTier3 (ds : Datasets) (query : String) (found : List String) : List String :=
  (addNew found ((sortDescLen (RAIN_SUBDIVS ds)).filter
    (fun s => strContains (strLower query) (strLower s)))).take 2

/-- The spec's three-step description of location resolution. -/
def extract_states_spec (ds : Datasets) (query : String) : List String :=
  let t1 := locationTier1 ds query
  if 2 ≤ t1.length then t1
  else
    let t2 := locationTier2 ds query t1
    if 2 ≤ t2.length then t2 else locationTier3 ds query t2

/-! ## Ordering facts for the top-crops aggregation -/

theorem mem_insertDescVal {x p : String × Rat} {l : List (String × Rat)} :
    p ∈ insertDescVal x l ↔ p = x ∨ p ∈ l := by
  induction l with
  | nil => simp [insertDescVal]
  | cons y ys ih =>
    by_cases h : y.2 ≤ x.2
    · simp [insertDescVal, h, List.mem_cons]
    · simp only [insertDescVal, if_neg h, List.mem_cons, ih]
      tauto

theorem mem_sortDescVal {p : String × Rat} {l : List (String × Rat)} :
    p ∈ sortDescVal l ↔ p ∈ l := by
  induction l with
  | nil => simp [sortDescVal]
  | cons x xs ih =>
    show p ∈ insertDescVal x (sortDescVal xs) ↔ _
    rw [mem_insertDescVal, ih, List.mem_cons]

theorem insertDescVal_val_pairwise {x : String × Rat} {s : List (String × Rat)}
    (hs : s.Pairwise (fun a b => b.2 ≤ a.2)) :
    (insertDescVal x s).Pairwise (fun a b => b.2 ≤ a.2) := by
  induction s with
  | nil => simp [insertDescVal]
  | cons y ys ih =>
    rcases List.pairwise_cons.mp hs with ⟨hy, hys⟩
    by_cases h : y.2 ≤ x.2
    · simp only [insertDescVal, if_pos h]
      refine List.pairwise_cons.mpr ⟨?_, hs⟩
      intro z hz
      rcases List.mem_cons.mp hz with hz | hz
      · subst hz; exact h
      · exact le_trans (hy z hz) h
    · simp only [insertDescVal, if_neg h]
      have hxy : x.2 ≤ y.2 := le_of_lt (lt_of_not_le h)
      refine List.pairwise_cons.mpr ⟨?_, ih hys⟩
      intro z hz
      rcases mem_insertDescVal.mp hz with hz | hz
      · subst hz; exact hxy
      · exact hy z hz

/-- The sort is weakly descending by value — a tie-order-independent fact. -/
theorem sortDescVal_val_pairwise (l : List (String × Rat)) :
    (sortDescVal l).Pairwise (fun a b => b.2 ≤ a.2) := by
  induction l with
  | nil => simp [sortDescVal]
  | cons x xs ih =>
    show (insertDescVal x (sortDescVal xs)).Pairwise _
    exact insertDescVal_val_pairwise ih

theorem groupSumBy_key_pairwise (key : CropRecord → String) (rows : List CropRecord) :
    (groupSumBy key rows).Pairwise (fun a b => a.1 < b.1) := by
  unfold groupSumBy
  exact (pairwise_sortUniqStr _).map _ (fun a b h => h)

theorem groupSumBy_ne_nil {key : CropRecord → String} {rows : List CropRecord}
    (h : rows ≠ []) : groupSumBy key rows ≠ [] := by
  match rows, h with
  | r :: rs, _ =>
    have hm : key r ∈ sortUniqStr ((r :: rs).map key) :=
      mem_sortUniqStr.mpr (List.mem_map_of_mem key (List.mem_cons_self _ _))
    unfold groupSumBy
    intro hc
    rw [List.map_eq_nil_iff] at hc
    rw [hc] at hm
    exact List.not_mem_nil _ hm

/-! ## Extremum facts for the district aggregation (C7) -/

theorem idxmaxFirst_eq_none {l : List (String × Rat)} : idxmaxFirst l = none ↔ l = [] := by
  cases l with
  | nil => simp [idxmaxFirst]
  | cons p ps =>
    simp only [idxmaxFirst]
    cases idxmaxFirst ps with
    | none => simp
    | some q => by_cases h : p.2 < q.2 <;> simp [h]

theorem idxminFirst_eq_none {l : List (String × Rat)} : idxminFirst l = none ↔ l = [] := by
  cases l with
  | nil => simp [idxminFirst]
  | cons p ps =>
    simp only [idxminFirst]
    cases idxminFirst ps with
    | none => simp
    | some q => by_cases h : q.2 < p.2 <;> simp [h]

theorem idxmaxFirst_spec {l : List (String × Rat)}
    (hk : l.Pairwise (fun a b => a.1 < b.1)) {dv : String × Rat}
    (h : idxmaxFirst l = some dv) :
    dv ∈ l ∧ (∀ p ∈ l, p.2 ≤ dv.2) ∧ (∀ p ∈ l, p.2 = dv.2 → dv.1 ≤ p.1) := by
  induction l generalizing dv with
  | nil => simp [idxmaxFirst] at h
  | cons p ps ih =>
    rcases List.pairwise_cons.mp hk with ⟨hp, hps⟩
    rcases hm : idxmaxFirst ps with _ | q
    · have hnil : ps = [] := idxmaxFirst_eq_none.mp hm
      subst hnil
      simp only [idxmaxFirst] at h
      injection h with h
      subst h
      refine ⟨List.mem_cons_self _ _, ?_, ?_⟩
      · intro z hz
        rcases List.mem_cons.mp hz with rfl | hz
        · exact le_refl _
        · simp at hz
      · intro z hz hv
        rcases List.mem_cons.mp hz with rfl | hz
        · exact le_refl _
        · simp at hz
    · simp only [idxmaxFirst, hm] at h
      by_cases hlt : p.2 < q.2
      · rw [if_pos hlt] at h
        injection h with h
        subst h
        rcases ih hps hm with ⟨hmem, hmax, htie⟩
        refine ⟨List.mem_cons_of_mem _ hmem, ?_, ?_⟩
        · intro z hz
          rcases List.mem_cons.mp hz with rfl | hz
          · exact le_of_lt hlt
          · exact hmax z hz
        · intro z hz hv
          rcases List.mem_cons.mp hz with rfl | hz
          · exact absurd (hv ▸ hlt) (lt_irrefl _)
          · exact htie z hz hv
      · rw [if_neg hlt] at h
        injection h with h
        subst h
        rcases ih hps hm with ⟨_, hmax, _⟩
        refine ⟨List.mem_cons_self _ _, ?_, ?_⟩
        · intro z hz
          rcases List.mem_cons.mp hz with rfl | hz
          · exact le_refl _
          · exact le_trans (hmax z hz) (le_of_not_lt hlt)
        · intro z hz hv
          rcases List.mem_cons.mp hz with rfl | hz
          · exact le_refl _
          · exact le_of_lt (hp z hz)

theorem idxminFirst_spec {l : List (String × Rat)}
    (hk : l.Pairwise (fun a b => a.1 < b.1)) {dv : String × Rat}
    (h : idxminFirst l = some dv) :
    dv ∈ l ∧ (∀ p ∈ l, dv.2 ≤ p.2) ∧ (∀ p ∈ l, p.2 = dv.2 → dv.1 ≤ p.1) := by
  induction l generalizing dv with
  | nil => simp [idxminFirst] at h
  | cons p ps ih =>
    rcases List.pairwise_cons.mp hk with ⟨hp, hps⟩
    rcases hm : idxminFirst ps with _ | q
    · have hnil : ps = [] := idxminFirst_eq_none.mp hm
      subst hnil
      simp only [idxminFirst] at h
      injection h with h
      subst h
      refine ⟨List.mem_cons_self _ _, ?_, ?_⟩
      · intro z hz
        rcases List.mem_cons.mp hz with rfl | hz
        · exact le_refl _
        · simp at hz
      · intro z hz hv
        rcases List.mem_cons.mp hz with rfl | hz
        · exact le_refl _
        · simp at hz
    · simp only [idxminFirst, hm] at h
      by_cases hlt : q.2 < p.2
      · rw [if_pos hlt] at h
        injection h with h
        subst h
        rcases ih hps hm with ⟨hmem, hmin, htie⟩
        refine ⟨List.mem_cons_of_mem _ hmem, ?_, ?_⟩
        · intro z hz
          rcases List.mem_cons.mp hz with rfl | hz
          · exact le_of_lt hlt
          · exact hmin z hz
        · intro z hz hv
          rcases List.mem_cons.mp hz with rfl | hz
          · exact absurd (hv ▸ hlt) (lt_irrefl _)
          · exact htie z hz hv
      · rw [if_neg hlt] at h
        injection h with h
        subst h
        rcases ih hps hm with ⟨_, hmin, _⟩
        refine ⟨List.mem_cons_self _ _, ?_, ?_⟩
        · intro z hz
          rcases List.mem_cons.mp hz with rfl | hz
          · exact le_refl _
          · exact le_trans (le_of_not_lt hlt) (hmin z hz)
        · intro z hz hv
          rcases List.mem_cons.mp hz with rfl | hz
          · exact le_refl _
          · exact le_of_lt (hp z hz)

/-! ## Helper lemmas for the rainfall aggregation (C2, C6) -/

theorem rainGet_map (f : Int → Option Rat) :
    ∀ (years : List Int) (y : Int), y ∈ years →
      rainGet (years.map (fun z => (z, f z))) y = f y := by
  intro years
  induction years with
  | nil =>
    intro y hy
    simp at hy
  | cons z zs ih =>
    intro y hy
    by_cases h : z = y
    · subst h
      simp [rainGet, List.find?_cons]
    · have h2 : y ∈ zs := by
        rcases List.mem_cons.mp hy with h2 | h2
        · exact absurd h2.symm h
        · exact h2
      have hr := ih y h2
      simpa [rainGet, List.find?_cons, h] using hr

theorem compute_avg_fst (ds : Datasets) (state : String) (years : List Int) :
    (compute_avg_rainfall_for_years ds state years).1
      = years.map (fun y => (y, (computeAvgForYear ds state (subMatchOf ds state) y).1)) := rfl

theorem computeAvgForYear_tier3 {ds : Datasets} {state : String} {sm : Option String} {y : Int}
    (h1 : tier1Rows ds sm y = []) (h2 : tier2Rows ds state y = []) :
    (computeAvgForYear ds state sm y).1 = rainMean (tier3Rows ds y) := by
  unfold computeAvgForYear
  rw [if_neg (not_not_intro h1), if_neg (not_not_intro h2)]
  by_cases h3 : tier3Rows ds y = []
  · rw [if_neg (not_not_intro h3), h3]
    simp [rainMean]
  · rw [if_pos h3]

theorem tierRows_empty_of_no_year {ds : Datasets} {y : Int}
    (hno : ∀ r ∈ ds.rain, r.year ≠ y) (sm : Option String) (state : String) :
    tier1Rows ds sm y = [] ∧ tier2Rows ds state y = [] ∧ tier3Rows ds y = [] := by
  refine ⟨?_, ?_, ?_⟩
  · cases sm with
    | none => rfl
    | some s =>
      simp only [tier1Rows]
      rw [List.filter_eq_nil_iff]
      intro r hr
      simp only [Bool.and_eq_true, beq_iff_eq, not_and]
      intro _
      exact hno r hr
  · simp only [tier2Rows]
    rw [List.filter_eq_nil_iff]
    intro r hr
    simp only [Bool.and_eq_true, beq_iff_eq, not_and]
    intro _
    exact hno r hr
  · simp only [tier3Rows]
    rw [List.filter_eq_nil_iff]
    intro r hr
    simp only [beq_iff_eq]
    exact hno r hr

/-! ## Regex-scan absence lemma (C9) -/

theorem scanFor_eq_none (m : List Char → Option Nat) (pat : List Char)
    (hm : ∀ l, startsWithCL l pat = false → m l = none) :
    ∀ l, containsCL l pat = false → scanFor m l = none := by
  intro l
  induction l with
  | nil =>
    intro h
    simp only [containsCL] at h
    have : startsWithCL [] pat = false := by
      cases pat with
      | nil => simp at h
      | cons p ps => rfl
    simpa [scanFor] using hm [] this
  | cons c t ih =>
    intro h
    simp only [containsCL, Bool.or_eq_false_iff] at h
    have h1 := hm (c :: t) h.1
    simp only [scanFor, h1]
    exact ih h.2

/-! ## Answer-text decomposition (C6) -/

theorem joinSep_mem_split {sep x : String} :
    ∀ {l : List String}, x ∈ l →
      ∃ pre post : List Char, (joinSep sep l).data = pre ++ x.data ++ post := by
  intro l
  induction l with
  | nil =>
    intro h
    simp at h
  | cons a t ih =>
    intro h
    cases t with
    | nil =>
      have hx : x = a := List.mem_singleton.mp h
      subst hx
      exact ⟨[], [], by simp [joinSep]⟩
    | cons b t2 =>
      rcases List.mem_cons.mp h with rfl | h2
      · refine ⟨[], (sep ++ joinSep sep (b :: t2)).data, ?_⟩
        show ((x ++ sep) ++ joinSep sep (b :: t2)).data = _
        rw [String.data_append, String.data_append, String.data_append]
        simp [List.append_assoc]
      · rcases ih h2 with ⟨pre, post, hp⟩
        refine ⟨a.data ++ sep.data ++ pre, post, ?_⟩
        show ((a ++ sep) ++ joinSep sep (b :: t2)).data = _
        rw [String.data_append, String.data_append, hp]
        simp [List.append_assoc]

/-! ## Branch-selection lemmas for `answer_query` -/

theorem answer_query_eq_compare (ds : Datasets) (q : String) (s1 s2 : String)
    (rest : List String) (hq : ¬ (pyStrip q) = "")
    (hs : extract_states ds (pyStrip q) = s1 :: s2 :: rest) :
    answer_query ds q = compareBranch ds (pyStrip q) s1 s2 := by
  show (if (pyStrip q) = "" then ("Please type a question.", Meta.plain "")
    else match extract_states ds (pyStrip q) with
    | s1 :: s2 :: _ => compareBranch ds (pyStrip q) s1 s2
    | [s] => singleBranch ds (pyStrip q) s
    | [] => (noStateMsg, Meta.plain "")) = _
  rw [if_neg hq, hs]

theorem answer_query_eq_noState (ds : Datasets) (q : String) (hq : ¬ (pyStrip q) = "")
    (hs : extract_states ds (pyStrip q) = []) :
    answer_query ds q = (noStateMsg, Meta.plain "") := by
  show (if (pyStrip q) = "" then ("Please type a question.", Meta.plain "")
    else match extract_states ds (pyStrip q) with
    | s1 :: s2 :: _ => compareBranch ds (pyStrip q) s1 s2
    | [s] => singleBranch ds (pyStrip q) s
    | [] => (noStateMsg, Meta.plain "")) = _
  rw [if_neg hq, hs]

theorem compareBranch_fst (ds : Datasets) (query : String) (s1 s2 : String) :
    (compareBranch ds query s1 s2).1
      = joinSep "\n" ((compareHeader (answerYears ds query)
          :: (answerYears ds query).map (compareRow s1 s2
              (compute_avg_rainfall_for_years ds s1 (answerYears ds query)).1
              (compute_avg_rainfall_for_years ds s2 (answerYears ds query)).1))
        ++ (compareCropsParts ds query s1 s2 (answerYears ds query)
              (extract_top_m query 3)).1) := rfl

/-! ## Concrete datasets for witnesses and counterexamples -/

/-- Rainfall-only dataset with years 2018–2020 (Karnataka subdivision). -/
def exDsA : Datasets :=
  ⟨[], [⟨"KARNATAKA", 2018, some 100⟩, ⟨"KARNATAKA", 2019, some 120⟩,
    ⟨"KARNATAKA", 2020, some 90⟩]⟩

/-- Both datasets empty. -/
def exDsEmpty : Datasets := ⟨[], []⟩

/-- Rainfall-only dataset with one Kerala row (no data for any other region). -/
def exDsB : Datasets := ⟨[], [⟨"KERALA", 2020, some 3000⟩]⟩

/-- Two states with 2020 crop data; rainfall data only for the Kerala
subdivision, year 2020. -/
def exDsC : Datasets :=
  ⟨[⟨"Kerala", "D1", "Rice", 2020, some 100⟩, ⟨"Goa", "D2", "Rice", 2020, some 50⟩],
    [⟨"KERALA", 2020, some 3000⟩]⟩

/-- Two states with 2020 crop data; rainfall data only for 2019. -/
def exDsD : Datasets :=
  ⟨[⟨"Kerala", "D1", "Rice", 2020, some 100⟩, ⟨"Goa", "D2", "Rice", 2020, some 50⟩],
    [⟨"KERALA", 2019, some 100⟩]⟩

/-- One state, three districts, with a production tie between D1 and D2. -/
def exDsE : Datasets :=
  ⟨[⟨"Kerala", "D1", "Rice", 2019, some 10⟩, ⟨"Kerala", "D2", "Rice", 2019, some 10⟩,
    ⟨"Kerala", "D3", "Rice", 2019, some 5⟩], []⟩

/-! ## Claims -/

/-- Claim C1 (code bug).  The spec says an explicit 4-digit year `Y` becomes
the sole entry of the year window, overriding any "last N" logic.  The code
(lines 294–299) consults `explicit_year` only when `extract_last_n_years`
returned `[]`, which is impossible when a year token is present (the
empty-union fallback inside `extract_last_n_years` already returns a
non-empty list for such queries), so the explicit year is always ignored:
here the app's own example query "Show average rainfall in Karnataka for
2015" resolves to the three most recent dataset years, not `[2015]`. -/
theorem C1_explicit_year_ignored :
    extract_year_from_query "Show average rainfall in Karnataka for 2015" = some 2015 ∧
    resolved_years exDsA "Show average rainfall in Karnataka for 2015" = [2018, 2019, 2020] ∧
    resolved_years exDsA "Show average rainfall in Karnataka for 2015" ≠ [2015] := by
  refine ⟨by decide, by decide, by decide⟩

/-- Claim C9, counterexample.  `extract_top_m` applies no clamping: the query
"top 0 crops" resolves `top_n = 0`, so the resolved top-N count is not always
positive as claimed. -/
theorem C9_counterexample_top_zero : extract_top_m "top 0 crops" 3 = 0 := by decide

/-- Claim C9, amended: the resolved top-N equals the (possibly zero) integer
following "top" when the `top\s+(\d+)` pattern appears, and defaults to 3
when the query does not even contain the substring "top"; it can never be
negative (it is parsed from a digit run) but it can be zero. -/
theorem C9_amended_top_n (q : String) (k : Nat) :
    (scanFor matchTopWs (strLower q).data = some k → extract_top_m q 3 = k) ∧
    (strContains (strLower q) "top" = false → extract_top_m q 3 = 3) := by
  constructor
  · intro h
    simp [extract_top_m, h]
  · intro h
    have hw : ∀ l, startsWithCL l "top".data = false → matchTopWs l = none := by
      intro l hl
      simp [matchTopWs, hl]
    have ho : ∀ l, startsWithCL l "top".data = false → matchTopOpt l = none := by
      intro l hl
      simp [matchTopOpt, hl]
    have hc : containsCL (strLower q).data "top".data = false := h
    have h1 := scanFor_eq_none matchTopWs "top".data hw (strLower q).data hc
    have h2 := scanFor_eq_none matchTopOpt "top".data ho (strLower q).data hc
    simp [extract_top_m, h1, h2]

/-- Witness for the amended C9. -/
theorem C9_amended_witness :
    extract_top_m "give top 4 crops in kerala" 3 = 4 ∧ extract_top_m "hello world" 3 = 3 :=
  ⟨(C9_amended_top_n "give top 4 crops in kerala" 4).1 (by decide),
    (C9_amended_top_n "hello world" 0).2 (by decide)⟩

/-- Claim C8, counterexample.  When the union of dataset years is empty, the
resolved window is not drawn from the union at all: the fallback
`re.findall(r"(19|20)\d{2}", query)` returns capture-group matches, so
`int(explicit[-1])` yields 19 or 20 — here `[20]` for a query mentioning
2019 — rather than a year from the (empty) union. -/
theorem C8_counterexample_empty_union :
    unionYears exDsEmpty = [] ∧
    extract_last_n_years exDsEmpty "last 5 years since 2019" 3 10 = [20] := by
  refine ⟨by decide, by decide⟩

set_option maxRecDepth 100000 in
/-- Claim C2, counterexample.  For location "Rajasthan" (no fuzzy subdivision
match at cutoff 0.6, no substring match) and year 2020, the claim demands the
year map to absent; the code instead substitutes the average over all
subdivisions nationwide (here Kerala's 3000 mm), so the value is present and
taken from an unrelated region. -/
theorem C2_counterexample_national_fallback :
    subMatchOf exDsB "Rajasthan" = none ∧
    tier2Rows exDsB "Rajasthan" 2020 = [] ∧
    (compute_avg_rainfall_for_years exDsB "Rajasthan" [2020]).1 = [(2020, some 3000)] := by
  refine ⟨by decide, by decide, by decide⟩

/-- Claim C2, amended: when neither the fuzzy-matched subdivision filter nor
the substring filter yields rows for a requested year, the code falls back to
the mean over ALL rainfall rows of that year (flagged in provenance as
"national avg fallback"); the year maps to absent only when that set is empty
too (or contains no numeric values).  Missing data is never rendered as
zero. -/
theorem C2_amended_absent_only_without_rows (ds : Datasets) (state : String)
    (years : List Int) (y : Int) (hy : y ∈ years)
    (h1 : tier1Rows ds (subMatchOf ds state) y = [])
    (h2 : tier2Rows ds state y = []) :
    rainGet (compute_avg_rainfall_for_years ds state years).1 y
      = rainMean (tier3Rows ds y) := by
  rw [compute_avg_fst, rainGet_map _ years y hy]
  exact computeAvgForYear_tier3 h1 h2

set_option maxRecDepth 100000 in
/-- Witness for the amended C2. -/
theorem C2_amended_witness :
    rainGet (compute_avg_rainfall_for_years exDsB "Rajasthan" [2020]).1 2020
      = rainMean (tier3Rows exDsB 2020) :=
  C2_amended_absent_only_without_rows exDsB "Rajasthan" [2020] 2020 (by decide)
    (by decide) (by decide)

/-- Tie-order-independent facts about the top-crops output: it is weakly
descending by total production, its length never exceeds `top_m`, and every
entry is one of the per-crop group totals over the filtered rows.  (Whether
equal totals carry any particular relative order is a property of pandas'
unstable default quicksort, not of this program; see `sortDescVal`.) -/
theorem top_crops_desc_bounded (ds : Datasets) (state : String) (years : List Int)
    (top_m : Nat) :
    ((compute_top_crops_for_state_and_years ds state years top_m).1).Pairwise
      (fun a b => b.2 ≤ a.2) ∧
    ((compute_top_crops_for_state_and_years ds state years top_m).1).length ≤ top_m ∧
    ∀ p ∈ (compute_top_crops_for_state_and_years ds state years top_m).1,
      p ∈ groupSumBy (fun r => r.crop) (topSubset ds state years) := by
  unfold compute_top_crops_for_state_and_years
  by_cases ha : ds.agri = []
  · rw [if_pos ha]
    simp
  · rw [if_neg ha]
    by_cases hs : topSubset ds state years = []
    · simp only [if_pos hs]
      simp
    · simp only [if_neg hs]
      refine ⟨?_, List.length_take_le _ _, ?_⟩
      · exact List.Pairwise.sublist (List.take_sublist _ _)
          (sortDescVal_val_pairwise _)
      · intro p hp
        exact mem_sortDescVal.mp (List.take_subset _ _ hp)

/-- Claim C4 (confirmed): `extract_states` implements exactly the three-tier
resolution described by the spec — (1) substring scan of the state names
sorted by descending length, stopping at two; (2) if fewer than two, fuzzy
matching of each title-cased alphabetic word at threshold 0.75, skipping
already-found names; (3) if still fewer than two, the longest-first substring
scan over the rainfall subdivisions — and returns at most 2 locations. -/
theorem C4_location_resolution_tiers (ds : Datasets) (q : String) :
    extract_states ds q = extract_states_spec ds q ∧ (extract_states ds q).length ≤ 2 := by
  have hnd : ((sortDescLen (STATES ds)).filter
      (fun s => strContains (strLower q) (strLower s))).Nodup :=
    (nodup_sortDescLen (nodup_sortUniqStr _)).filter _
  have h1 : stateScanLoop (strLower q) [] (sortDescLen (STATES ds)) = locationTier1 ds q := by
    rw [stateScanLoop_eq (strLower q) [] _ (by simp), addNew_nil_of_nodup hnd]
    rfl
  have main : extract_states ds q = extract_states_spec ds q := by
    simp only [extract_states, extract_states_spec]
    rw [h1]
    by_cases ht1 : 2 ≤ (locationTier1 ds q).length
    · rw [if_pos ht1, if_pos ht1]
    · rw [if_neg ht1, if_neg ht1]
      have hlen1 : (locationTier1 ds q).length ≤ 1 := by omega
      have h2 : fuzzyWordLoop (STATES ds) (locationTier1 ds q) (queryWords q)
          = locationTier2 ds q (locationTier1 ds q) :=
        fuzzyWordLoop_eq _ _ _ hlen1
      rw [h2]
      by_cases ht2 : 2 ≤ (locationTier2 ds q (locationTier1 ds q)).length
      · rw [if_pos ht2, if_pos ht2]
      · rw [if_neg ht2, if_neg ht2]
        have hlen2 : (locationTier2 ds q (locationTier1 ds q)).length ≤ 1 := by omega
        exact stateScanLoop_eq _ _ _ hlen2
  refine ⟨main, ?_⟩
  rw [main]
  simp only [extract_states_spec]
  by_cases ht1 : 2 ≤ (locationTier1 ds q).length
  · rw [if_pos ht1]
    exact List.length_take_le _ _
  · rw [if_neg ht1]
    by_cases ht2 : 2 ≤ (locationTier2 ds q (locationTier1 ds q)).length
    · rw [if_pos ht2]
      exact List.length_take_le _ _
    · rw [if_neg ht2]
      exact List.length_take_le _ _

set_option maxRecDepth 100000 in
/-- Witness for C4. -/
theorem C4_witness :
    extract_states exDsC "Compare rainfall in Kerala and Goa"
        = extract_states_spec exDsC "Compare rainfall in Kerala and Goa" ∧
    (extract_states exDsC "Compare rainfall in Kerala and Goa").length ≤ 2 :=
  C4_location_resolution_tiers exDsC "Compare rainfall in Kerala and Goa"

/-- Claim C5 (confirmed): when location resolution yields zero locations (for
a non-empty query), `answer_query` returns exactly the user-guidance message
with the empty-string metadata: no rainfall, crop, or district computation is
reached and no answer section or provenance entry is composed. -/
theorem C5_no_location_short_circuits (ds : Datasets) (q : String)
    (hq : ¬ pyStrip q = "") (hs : extract_states ds (pyStrip q) = []) :
    answer_query ds q = (noStateMsg, Meta.plain "") :=
  answer_query_eq_noState ds q hq hs

set_option maxRecDepth 100000 in
/-- Witness for C5: the spec's own scenario, "Rainfall in Gondwanaland for
2020" against a dataset whose vocabularies contain Kerala and Goa. -/
theorem C5_witness :
    answer_query exDsC "Rainfall in Gondwanaland for 2020" = (noStateMsg, Meta.plain "") :=
  C5_no_location_short_circuits exDsC "Rainfall in Gondwanaland for 2020" (by decide)
    (by decide)

/-- Claim C7 (confirmed): `district_extremes_for_crop` filters by
case-insensitive state substring, case-insensitive exact crop equality and
exact year equality (`deSubset`); on the district-grouped sums, the first
component is the first group (in the ascending iteration order of the pandas
groupby) attaining the maximal total, the second the first attaining the
minimal total, and both are absent exactly when the filtered set is empty. -/
theorem C7_district_extremes_spec (ds : Datasets) (state crop : String) (year : Int) :
    ((district_extremes_for_crop ds state crop year).1 = none
        ↔ deSubset ds state crop year = []) ∧
    ((district_extremes_for_crop ds state crop year).2.1 = none
        ↔ deSubset ds state crop year = []) ∧
    (∀ dv : String × Rat, (district_extremes_for_crop ds state crop year).1 = some dv →
      dv ∈ groupSumBy (fun r => r.district) (deSubset ds state crop year) ∧
      (∀ p ∈ groupSumBy (fun r => r.district) (deSubset ds state crop year), p.2 ≤ dv.2) ∧
      (∀ p ∈ groupSumBy (fun r => r.district) (deSubset ds state crop year),
        p.2 = dv.2 → dv.1 ≤ p.1)) ∧
    (∀ dv : String × Rat, (district_extremes_for_crop ds state crop year).2.1 = some dv →
      dv ∈ groupSumBy (fun r => r.district) (deSubset ds state crop year) ∧
      (∀ p ∈ groupSumBy (fun r => r.district) (deSubset ds state crop year), dv.2 ≤ p.2) ∧
      (∀ p ∈ groupSumBy (fun r => r.district) (deSubset ds state crop year),
        p.2 = dv.2 → dv.1 ≤ p.1)) := by
  by_cases ha : ds.agri = []
  · have hsub : deSubset ds state crop year = [] := by
      unfold deSubset
      rw [ha]
      rfl
    have hde : district_extremes_for_crop ds state crop year = (none, none, []) := by
      unfold district_extremes_for_crop
      rw [if_pos ha]
    rw [hde, hsub]
    refine ⟨by simp, by simp, ?_, ?_⟩
    · intro dv h
      simp at h
    · intro dv h
      simp at h
  · by_cases hsub : deSubset ds state crop year = []
    · have hde : district_extremes_for_crop ds state crop year
          = (none, none, ["agri_df[State contains \x27" ++ state ++ "\x27 & Crop==\x27"
            ++ crop ++ "\x27 & Crop_Year==" ++ toString year ++ "]"]) := by
        simp [district_extremes_for_crop, ha, hsub]
      rw [hde, hsub]
      refine ⟨by simp, by simp, ?_, ?_⟩
      · intro dv h
        simp at h
      · intro dv h
        simp at h
    · have hg : groupSumBy (fun r => r.district) (deSubset ds state crop year) ≠ [] :=
        groupSumBy_ne_nil hsub
      have hde : district_extremes_for_crop ds state crop year
          = (idxmaxFirst (groupSumBy (fun r => r.district) (deSubset ds state crop year)),
             idxminFirst (groupSumBy (fun r => r.district) (deSubset ds state crop year)),
             ["agri_df[State contains \x27" ++ state ++ "\x27 & Crop==\x27"
               ++ crop ++ "\x27 & Crop_Year==" ++ toString year ++ "]"]) := by
        simp [district_extremes_for_crop, ha, hsub]
      rw [hde]
      refine ⟨?_, ?_, ?_, ?_⟩
      · simp only [idxmaxFirst_eq_none]
        exact ⟨fun h => absurd h hg, fun h => absurd h hsub⟩
      · simp only [idxminFirst_eq_none]
        exact ⟨fun h => absurd h hg, fun h => absurd h hsub⟩
      · intro dv h
        exact idxmaxFirst_spec (groupSumBy_key_pairwise _ _) h
      · intro dv h
        exact idxminFirst_spec (groupSumBy_key_pairwise _ _) h

/-- Witness for C7: a dataset with a production tie between districts D1 and
D2; the maximum goes to D1, the first in iteration order. -/
theorem C7_witness :
    (district_extremes_for_crop exDsE "Kerala" "Rice" 2019).1 = some ("D1", 10) ∧
    (∀ p ∈ groupSumBy (fun r => r.district) (deSubset exDsE "Kerala" "Rice" 2019),
      p.2 ≤ 10) :=
  ⟨by decide,
    fun p hp =>
      ((C7_district_extremes_spec exDsE "Kerala" "Rice" 2019).2.2.1 ("D1", 10)
        (by decide)).2.1 p hp⟩

/-- Claim C10 (confirmed): `answer_query` is a pure function of the query
text and the datasets — two calls with identical text against unchanged
datasets give byte-identical answers, including section order, provenance
order and tie-breaking. -/
theorem C10_deterministic (ds : Datasets) (q1 q2 : String) (h : q1 = q2) :
    answer_query ds q1 = answer_query ds q2 := by rw [h]

/-- Witness for C10. -/
theorem C10_witness :
    answer_query exDsC "Compare rainfall in Kerala and Goa"
      = answer_query exDsC "Compare rainfall in Kerala and Goa" :=
  C10_deterministic exDsC "Compare rainfall in Kerala and Goa"
    "Compare rainfall in Kerala and Goa" rfl

/-- Claim C8, amended: when the union of the two datasets' year sets is
non-empty, the window size is the regex-resolved `N` clamped to `[1, 10]`
(3 when no "last N" pattern matches), and the resolved years are exactly the
`N` most recent years of the union in ascending order: sorted, drawn from the
union, of length `min N |union|`, with every non-selected union year older
than every selected one.  (When the union is empty the function instead
returns the findall capture-group fallback — see the counterexample.) -/
theorem C8_amended_last_n_window (ds : Datasets) (q : String) (h : unionYears ds ≠ []) :
    (1 ≤ lastNCount q 3 10 ∧ lastNCount q 3 10 ≤ 10) ∧
    (scanFor matchLastYears (strLower q).data = none ∧
      scanFor matchLastAny (strLower q).data = none → lastNCount q 3 10 = 3) ∧
    (extract_last_n_years ds q 3 10).Pairwise (· < ·) ∧
    (∀ y ∈ extract_last_n_years ds q 3 10, y ∈ unionYears ds) ∧
    (extract_last_n_years ds q 3 10).length
      = min (lastNCount q 3 10) (unionYears ds).length ∧
    (∀ y ∈ unionYears ds, y ∉ extract_last_n_years ds q 3 10 →
      ∀ z ∈ extract_last_n_years ds q 3 10, y < z) := by
  have hres : extract_last_n_years ds q 3 10
      = ((unionYears ds).reverse.take (lastNCount q 3 10)).reverse := by
    simp only [extract_last_n_years, if_neg h]
  have hu : (unionYears ds).Pairwise (· < ·) := pairwise_sortUniqInt _
  have hsplit : unionYears ds
      = ((unionYears ds).reverse.drop (lastNCount q 3 10)).reverse
        ++ ((unionYears ds).reverse.take (lastNCount q 3 10)).reverse := by
    have h1 : (unionYears ds).reverse
        = (unionYears ds).reverse.take (lastNCount q 3 10)
          ++ (unionYears ds).reverse.drop (lastNCount q 3 10) :=
      (List.take_append_drop _ _).symm
    calc unionYears ds = (unionYears ds).reverse.reverse := (List.reverse_reverse _).symm
      _ = ((unionYears ds).reverse.take (lastNCount q 3 10)
            ++ (unionYears ds).reverse.drop (lastNCount q 3 10)).reverse := by rw [← h1]
      _ = _ := List.reverse_append _ _
  have husplit := hu
  rw [hsplit] at husplit
  rcases List.pairwise_append.mp husplit with ⟨_, hBpair, hcross⟩
  refine ⟨?_, ?_, ?_, ?_, ?_, ?_⟩
  · constructor
    · exact le_max_left _ _
    · exact max_le (by norm_num) (min_le_right _ _)
  · intro hnone
    simp [lastNCount, hnone.1, hnone.2]
  · rw [hres]
    exact hBpair
  · intro y hy
    rw [hres] at hy
    rw [hsplit]
    exact List.mem_append_right _ hy
  · rw [hres]
    simp [List.length_reverse, List.length_take]
  · intro y hyu hynot z hz
    rw [hres] at hynot hz
    rw [hsplit] at hyu
    rcases List.mem_append.mp hyu with hy | hy
    · exact hcross y hy z hz
    · exact absurd hy hynot

/-- Witness for the amended C8. -/
theorem C8_amended_witness :
    1 ≤ lastNCount "last 2 years" 3 10 ∧ lastNCount "last 2 years" 3 10 ≤ 10 :=
  (C8_amended_last_n_window exDsA "last 2 years" (by decide)).1

set_option maxRecDepth 1000000 in
/-- Claim C6, counterexample.  Goa has no rainfall rows at all (no fuzzy
subdivision match, no substring match), while Kerala has data for 2020 — the
claim then requires the 2020 line to show "N/A" for Goa.  Instead the
national-average fallback fills in Kerala's 3000 mm for Goa and the rendered
answer contains no "N/A" at all. -/
theorem C6_counterexample_fallback_masks_missing :
    (∀ r ∈ exDsC.rain, strContains (strLower r.subdivision) (strLower "Goa") = false) ∧
    subMatchOf exDsC "Goa" = none ∧
    (answer_query exDsC "Compare rainfall in Kerala and Goa").1
      = "🌧️ **Rainfall comparison — 2020**\n- 2020: **Kerala**: 3000.00 mm   |   **Goa**: 3000.00 mm" ∧
    strContains (answer_query exDsC "Compare rainfall in Kerala and Goa").1 "N/A" = false := by
  refine ⟨by decide, by decide, by decide, by decide⟩

/-- Claim C6, amended: each location's per-year value comes from its own
independent `compute_avg_rainfall_for_years` call; but a location with no
matching rows shows "N/A" only when the dataset has no rainfall rows for that
year at all — in which case both locations show "N/A" in the same line (when
some other region has data for the year, the national-average fallback shows
a number instead; see the counterexample). -/
theorem C6_amended_rows_independent (ds : Datasets) (q s1 s2 : String) (y : Int)
    (hs : extract_states ds (pyStrip q) = [s1, s2])
    (hq : ¬ pyStrip q = "")
    (hy : y ∈ answerYears ds (pyStrip q))
    (hno : ∀ r ∈ ds.rain, r.year ≠ y) :
    rainGet (compute_avg_rainfall_for_years ds s1 (answerYears ds (pyStrip q))).1 y = none ∧
    rainGet (compute_avg_rainfall_for_years ds s2 (answerYears ds (pyStrip q))).1 y = none ∧
    ∃ pre post : List Char,
      ((answer_query ds q).1).data
        = pre ++ ("- " ++ toString y ++ ": **" ++ s1 ++ "**: " ++ "N/A" ++ "   |   **"
            ++ s2 ++ "**: " ++ "N/A").data ++ post := by
  have hval : ∀ s : String,
      rainGet (compute_avg_rainfall_for_years ds s (answerYears ds (pyStrip q))).1 y
        = none := by
    intro s
    rw [compute_avg_fst, rainGet_map _ _ y hy]
    rcases tierRows_empty_of_no_year hno (subMatchOf ds s) s with ⟨h1, h2, h3⟩
    rw [computeAvgForYear_tier3 h1 h2, h3]
    simp [rainMean]
  refine ⟨hval s1, hval s2, ?_⟩
  have hrow : compareRow s1 s2
        (compute_avg_rainfall_for_years ds s1 (answerYears ds (pyStrip q))).1
        (compute_avg_rainfall_for_years ds s2 (answerYears ds (pyStrip q))).1 y
      = "- " ++ toString y ++ ": **" ++ s1 ++ "**: " ++ "N/A" ++ "   |   **"
          ++ s2 ++ "**: " ++ "N/A" := by
    simp only [compareRow, hval s1, hval s2, fmtOptMm]
  rw [answer_query_eq_compare ds q s1 s2 [] hq hs, compareBranch_fst]
  apply joinSep_mem_split
  rw [← hrow]
  refine List.mem_append_left _ ?_
  exact List.mem_cons_of_mem _ (List.mem_map_of_mem _ hy)

set_option maxRecDepth 1000000 in
/-- Witness for the amended C6: rainfall data exists only for 2019, so the
2020 comparison line shows "N/A" for both states, each computed
independently. -/
theorem C6_amended_witness :
    rainGet (compute_avg_rainfall_for_years exDsD "Kerala"
        (answerYears exDsD (pyStrip "Compare rainfall in Kerala and Goa"))).1 2020 = none ∧
    rainGet (compute_avg_rainfall_for_years exDsD "Goa"
        (answerYears exDsD (pyStrip "Compare rainfall in Kerala and Goa"))).1 2020 = none ∧
    ∃ pre post : List Char,
      ((answer_query exDsD "Compare rainfall in Kerala and Goa").1).data
        = pre ++ ("- " ++ toString (2020 : Int) ++ ": **" ++ "Kerala" ++ "**: " ++ "N/A"
            ++ "   |   **" ++ "Goa" ++ "**: " ++ "N/A").data ++ post :=
  C6_amended_rows_independent exDsD "Compare rainfall in Kerala and Goa" "Kerala" "Goa"
    2020 (by decide) (by decide) (by decide) (by decide)

end Samarth
